import Mathlib

/-
  Verification of the bulletproof memory-access library.

  The library exposes a handle `Bulletproof` with guarded load/store
  operations that return `Err(())` instead of crashing when the touched
  address range is inaccessible.  The Rust source (src/lib.rs) is a thin
  wrapper over native guarded-touch primitives (`bulletproof_load`,
  `bulletproof_load_bytes`, `bulletproof_store`, `bulletproof_store_bytes`,
  `bulletproof_register`) declared extern there; the native side is not in
  the crate, so those primitives are modelled from the specification.

  Embedding choices:
  - memory is byte-addressed: a `Memory` gives per-byte readability,
    writability and contents; address 0 is the null pointer;
  - a value of a type `T` of size n is represented by its n-byte
    little-endian representation (a `List Nat` of length n); `usize` values
    are naturals below 2 ^ 64 connected to bytes by `toLEBytes` /
    `usizeOfBytes`;
  - `mem::uninitialized()` buffers are passed explicitly as `uninit`
    arguments, so that "the uninitialized buffer is never exposed" is a
    provable statement (results are independent of `uninit`);
  - a native call returning a nonzero status is the fault case; store
    primitives return the resulting memory alongside the status.
-/

/-- Machine word size in bytes: the source targets a 64-bit platform, so
`size_of::<usize>()` is 8. -/
def wordSize : Nat := 8

/-- A byte-addressed memory: which byte addresses may be read, which may be
written, and the byte stored at each address.  Address 0 is null. -/
structure Memory where
  readable : Nat → Bool
  writable : Nat → Bool
  byte : Nat → Nat

/-- The bytes of memory in the range `[loc, loc + size)`. -/
def bytesAt (mem : Memory) (loc size : Nat) : List Nat :=
  (List.range size).map (fun i => mem.byte (loc + i))

/-- Every byte of `[loc, loc + size)` is readable. -/
def rangeReadable (mem : Memory) (loc size : Nat) : Bool :=
  (List.range size).all (fun i => mem.readable (loc + i))

/-- Every byte of `[loc, loc + size)` is writable. -/
def rangeWritable (mem : Memory) (loc size : Nat) : Bool :=
  (List.range size).all (fun i => mem.writable (loc + i))

/-- Little-endian byte representation, `n` bytes, of a natural number. -/
def toLEBytes : Nat → Nat → List Nat
  | 0, _ => []
  | n + 1, v => v % 256 :: toLEBytes n (v / 256)

/-- The natural number represented by a little-endian byte list. -/
def usizeOfBytes : List Nat → Nat
  | [] => 0
  | b :: bs => b + 256 * usizeOfBytes bs

/-- Overwrite the bytes of `[loc, loc + src.length)` with `src`, leaving
permissions and all other bytes unchanged. -/
def writeBytes (mem : Memory) (loc : Nat) (src : List Nat) : Memory :=
  { mem with
    byte := fun a =>
      if loc ≤ a ∧ a < loc + src.length then src.getD (a - loc) 0 else mem.byte a }

/-- Modelled from the spec: the native `bulletproof_load_bytes(loc, dst, size)`
primitive (its C source is not in the crate).  A guarded touch copying `size`
bytes from `loc` into the destination buffer `dst`: status 0 and the filled
buffer on success; a nonzero status on fault, in which case the destination
buffer's contents are unspecified (modelled as the buffer passed in).  It
faults exactly when some byte of `[loc, loc + size)` is not readable, and a
fault anywhere in the range aborts the entire copy. -/
def bulletproof_load_bytes (mem : Memory) (loc : Nat) (dst : List Nat)
    (size : Nat) : Nat × List Nat :=
  if rangeReadable mem loc size then (0, bytesAt mem loc size) else (1, dst)

/-- Modelled from the spec: the native `bulletproof_load(loc, dst)` primitive
(its C source is not in the crate).  A guarded touch of `wordSize` bytes at
`loc` returning the buffer's value as a word: status 0 and the loaded word on
success; a nonzero status on fault, the destination word unspecified
(modelled as the value passed in). -/
def bulletproof_load (mem : Memory) (loc : Nat) (dst : Nat) : Nat × Nat :=
  if rangeReadable mem loc wordSize then
    (0, usizeOfBytes (bytesAt mem loc wordSize))
  else (1, dst)

/-- Modelled from the spec: the native `bulletproof_store_bytes(loc, src, size)`
primitive (its C source is not in the crate).  A guarded touch writing the
bytes of `src` to `[loc, loc + src.length)`: status 0 with the updated memory
on success; a nonzero status on fault with the memory unchanged (the spec's
contract: the write fully applies or has no observable effect).  It faults
exactly when some byte of the range is not writable. -/
def bulletproof_store_bytes (mem : Memory) (loc : Nat) (src : List Nat) :
    Nat × Memory :=
  if rangeWritable mem loc src.length then (0, writeBytes mem loc src)
  else (1, mem)

/-- Modelled from the spec: the native `bulletproof_store(loc, val)` primitive
(its C source is not in the crate).  A guarded touch writing the word `val`
(its `wordSize` little-endian bytes) to `loc`. -/
def bulletproof_store (mem : Memory) (loc val : Nat) : Nat × Memory :=
  bulletproof_store_bytes mem loc (toLEBytes wordSize val)

/-- The bulletproof handle: a zero-sized `Copy` struct (src/lib.rs line 74). -/
structure Bulletproof where

/-- `Bulletproof::new()` (src/lib.rs lines 84-91): calls the native
`bulletproof_register()` and asserts its result is 0.  The register result is
passed as a parameter; the failed assertion (a panic aborting the caller) is
modelled as `none`, success as `some` of the handle. -/
def Bulletproof.new (registerResult : Nat) : Option Bulletproof :=
  if registerResult = 0 then some ⟨⟩ else none

/-- `Bulletproof::load_usize` (src/lib.rs lines 103-110): reads a word through
`bulletproof_load` into an uninitialized local, returns `Err(())` on nonzero
status and `Ok(result)` otherwise. -/
def Bulletproof.load_usize (_ : Bulletproof) (mem : Memory) (location : Nat)
    (uninit : Nat) : Except Unit Nat :=
  let r := bulletproof_load mem location uninit
  if r.1 ≠ 0 then .error () else .ok r.2

/-- `Bulletproof::load::<T>` (src/lib.rs lines 122-134): reads
`size_of::<T>()` bytes through `bulletproof_load_bytes` into an uninitialized
local, returns `Err(())` on nonzero status and `Ok(result)` otherwise.  The
type `T` is represented by its byte size; its values by byte lists. -/
def Bulletproof.load (_ : Bulletproof) (mem : Memory) (location size : Nat)
    (uninit : List Nat) : Except Unit (List Nat) :=
  let r := bulletproof_load_bytes mem location uninit size
  if r.1 ≠ 0 then .error () else .ok r.2

/-- `Bulletproof::store_usize` (src/lib.rs lines 146-152): writes a word
through `bulletproof_store`, returns `Err(())` on nonzero status and
`Ok(())` otherwise.  The resulting memory is returned alongside. -/
def Bulletproof.store_usize (_ : Bulletproof) (mem : Memory)
    (location val : Nat) : Except Unit Unit × Memory :=
  let r := bulletproof_store mem location val
  if r.1 ≠ 0 then (.error (), r.2) else (.ok (), r.2)

/-- `Bulletproof::store::<T>` (src/lib.rs lines 164-174): writes
`size_of::<T>()` bytes through `bulletproof_store_bytes`, returns `Err(())`
on nonzero status and `Ok(())` otherwise. -/
def Bulletproof.store (_ : Bulletproof) (mem : Memory) (location : Nat)
    (src : List Nat) : Except Unit Unit × Memory :=
  let r := bulletproof_store_bytes mem location src
  if r.1 ≠ 0 then (.error (), r.2) else (.ok (), r.2)

/-- `n` consecutive calls of `load_usize` at the same location, collecting the
results (loads do not modify memory, so each call sees the same memory). -/
def loadUsizeSeq (b : Bulletproof) (mem : Memory) (loc uninit : Nat) :
    Nat → List (Except Unit Nat)
  | 0 => []
  | n + 1 => b.load_usize mem loc uninit :: loadUsizeSeq b mem loc uninit n

/-- A memory with nothing mapped: every byte is inaccessible. -/
def memNull : Memory :=
  { readable := fun _ => false, writable := fun _ => false, byte := fun _ => 0 }

/-- A fully accessible memory holding the word 42 at address 0. -/
def mem42 : Memory :=
  { readable := fun _ => true, writable := fun _ => true,
    byte := fun a => if a = 0 then 42 else 0 }

/-- A memory whose first page is only 8 bytes: addresses 0..7 are readable,
everything beyond is unmapped. -/
def memPage : Memory :=
  { readable := fun a => decide (a < 8), writable := fun _ => false,
    byte := fun _ => 7 }

theorem toLEBytes_length (n v : Nat) : (toLEBytes n v).length = n := by
  induction n generalizing v with
  | zero => rfl
  | succ n ih => simp [toLEBytes, ih]

theorem mod_mul_decomp (v b c : Nat) :
    v % (b * c) = v % b + b * (v / b % c) := by
  conv_lhs => rw [← Nat.div_add_mod (v % (b * c)) b]
  rw [Nat.mod_mul_right_div_self, Nat.mod_mod_of_dvd v (dvd_mul_right b c)]
  omega

theorem usizeOfBytes_toLEBytes (n v : Nat) :
    usizeOfBytes (toLEBytes n v) = v % 256 ^ n := by
  induction n generalizing v with
  | zero => simp [toLEBytes, usizeOfBytes, Nat.mod_one]
  | succ n ih =>
    rw [toLEBytes, usizeOfBytes, ih, pow_succ, mul_comm (256 ^ n) 256,
      mod_mul_decomp v 256 (256 ^ n)]

theorem getD_range_map (l : List Nat) :
    (List.range l.length).map (fun i => l.getD i 0) = l := by
  apply List.ext_getElem
  · simp
  · intro i h1 h2
    simp only [List.getElem_map, List.getElem_range]
    rw [List.getD_eq_getElem l 0 h2]

theorem bytesAt_writeBytes (mem : Memory) (loc : Nat) (src : List Nat) :
    bytesAt (writeBytes mem loc src) loc src.length = src := by
  apply List.ext_getElem
  · simp [bytesAt]
  · intro i h1 h2
    simp only [bytesAt, writeBytes, List.getElem_map, List.getElem_range]
    have hc : loc ≤ loc + i ∧ loc + i < loc + src.length := by
      constructor
      · exact Nat.le_add_right loc i
      · have : i < src.length := by simpa [bytesAt] using h1
        omega
    rw [if_pos hc, Nat.add_sub_cancel_left, List.getD_eq_getElem src 0 h2]

theorem rangeReadable_eq_false (mem : Memory) (loc size i : Nat)
    (hi : i < size) (h : mem.readable (loc + i) = false) :
    rangeReadable mem loc size = false := by
  unfold rangeReadable
  by_contra hc
  rw [Bool.not_eq_false] at hc
  have := List.all_eq_true.mp hc i (List.mem_range.mpr hi)
  simp only [h] at this
  exact Bool.false_ne_true this

theorem load_usize_fails_of_unreadable (b : Bulletproof) (mem : Memory)
    (loc i uninit : Nat) (hi : i < wordSize)
    (h : mem.readable (loc + i) = false) :
    b.load_usize mem loc uninit = .error () := by
  unfold Bulletproof.load_usize bulletproof_load
  rw [rangeReadable_eq_false mem loc wordSize i hi h]
  rfl

theorem load_fails_of_unreadable (b : Bulletproof) (mem : Memory)
    (loc size i : Nat) (uninit : List Nat) (hi : i < size)
    (h : mem.readable (loc + i) = false) :
    b.load mem loc size uninit = .error () := by
  unfold Bulletproof.load bulletproof_load_bytes
  rw [rangeReadable_eq_false mem loc size i hi h]
  rfl

/-- C1: for every valid, correctly-typed address `a` holding a value `v` of
type `T`, `load<T>(a)` returns `Ok(v)` — here a value of the `n`-byte type
`T` is its byte representation `bytesAt mem a n`, and the only validity
condition is that the `n` touched bytes are readable — and in particular
`load_usize(a)` returns `Ok(v)` when `a` validly holds the word `v`.  Each
half of the conjunction carries only its own validity hypotheses. -/
theorem load_returns_held_value (b : Bulletproof) (mem : Memory)
    (a n v uninitW : Nat) (uninitB : List Nat) :
    (rangeReadable mem a wordSize = true →
     bytesAt mem a wordSize = toLEBytes wordSize v →
     v < 2 ^ (8 * wordSize) →
     b.load_usize mem a uninitW = .ok v) ∧
    (rangeReadable mem a n = true →
     b.load mem a n uninitB = .ok (bytesAt mem a n)) := by
  constructor
  · intro hr hold hv
    unfold Bulletproof.load_usize bulletproof_load
    rw [hr]
    simp only [if_true, ne_eq, not_true_eq_false, if_false, reduceIte]
    rw [hold, usizeOfBytes_toLEBytes]
    have h256 : (256 : Nat) ^ wordSize = 2 ^ (8 * wordSize) := by
      norm_num [wordSize]
    rw [h256, Nat.mod_eq_of_lt hv]
  · intro hrn
    unfold Bulletproof.load bulletproof_load_bytes
    rw [hrn]
    rfl

/-- C1 witness: in `mem42`, address 0 validly holds the word 42 and
`load_usize` returns it; in `memPage` (only bytes 0..7 mapped) the 4-byte
range at address 4 is readable even though the surrounding word range is
not, and the generic 4-byte `load` there returns the held bytes. -/
theorem load_returns_held_value_witness :
    rangeReadable mem42 0 wordSize = true ∧
    bytesAt mem42 0 wordSize = toLEBytes wordSize 42 ∧
    42 < 2 ^ (8 * wordSize) ∧
    rangeReadable memPage 4 4 = true ∧
    Bulletproof.load_usize ⟨⟩ mem42 0 0 = .ok 42 ∧
    Bulletproof.load ⟨⟩ memPage 4 4 [] = .ok (bytesAt memPage 4 4) :=
  ⟨by decide, by decide, by decide, by decide,
   (load_returns_held_value ⟨⟩ mem42 0 8 42 0 []).1
     (by decide) (by decide) (by decide),
   (load_returns_held_value ⟨⟩ memPage 4 4 0 0 []).2 (by decide)⟩

/-- C2: for the null (clearly-unmapped) address, `load_usize(null)` returns
`Err(())` and `load::<[usize; 32]>(null)` (a 32-word, `32 * wordSize`-byte
load) returns `Err(())`: the operations fail with an error result rather
than crashing.  Null being clearly unmapped is the hypothesis that byte 0
is not readable. -/
theorem load_null_fails (b : Bulletproof) (mem : Memory) (uninitW : Nat)
    (uninitB : List Nat) (h : mem.readable 0 = false) :
    b.load_usize mem 0 uninitW = .error () ∧
    b.load mem 0 (32 * wordSize) uninitB = .error () := by
  constructor
  · exact load_usize_fails_of_unreadable b mem 0 0 uninitW (by norm_num [wordSize]) h
  · exact load_fails_of_unreadable b mem 0 (32 * wordSize) 0 uninitB
      (by norm_num [wordSize]) h

/-- C2 witness: in the fully unmapped memory `memNull`, both the word load
and the 32-word load at null fail. -/
theorem load_null_fails_witness :
    memNull.readable 0 = false ∧
    Bulletproof.load_usize ⟨⟩ memNull 0 0 = .error () ∧
    Bulletproof.load ⟨⟩ memNull 0 (32 * wordSize) [] = .error () :=
  ⟨rfl, load_null_fails ⟨⟩ memNull 0 [] rfl⟩

/-- C5: for every `load<T>(a)` whose byte range `[a, a + size_of::<T>())`
contains at least one inaccessible byte — even when `a` itself is valid —
the whole operation returns `Err(())`; the error result carries no data, so
no partially-filled result is returned to the caller. -/
theorem load_fails_on_any_bad_byte (b : Bulletproof) (mem : Memory)
    (a n i : Nat) (uninit : List Nat) (hi : i < n)
    (hbad : mem.readable (a + i) = false) :
    b.load mem a n uninit = .error () :=
  load_fails_of_unreadable b mem a n i uninit hi hbad

/-- C5 witness: in `memPage` only bytes 0..7 are readable; a 16-byte load at
the valid address 0 straddles into the unmapped part (byte 8) and fails. -/
theorem load_fails_on_any_bad_byte_witness :
    8 < 16 ∧ memPage.readable (0 + 8) = false ∧
    Bulletproof.load ⟨⟩ memPage 0 16 [] = .error () :=
  ⟨by decide, by decide,
   load_fails_on_any_bad_byte ⟨⟩ memPage 0 16 8 [] (by decide) (by decide)⟩

/-- C6: idempotence of failure — for every `n`, a sequence of `n` consecutive
calls to `load_usize(null)` returns `Err(())` every time (the sequence of
results is `n` copies of the error), regardless of how many failing calls
preceded each one; every call terminates with a value, so none crashes. -/
theorem repeated_null_load_fails (b : Bulletproof) (mem : Memory)
    (uninit n : Nat) (h : mem.readable 0 = false) :
    loadUsizeSeq b mem 0 uninit n = List.replicate n (.error ()) := by
  induction n with
  | zero => rfl
  | succ n ih =>
    rw [loadUsizeSeq, ih, List.replicate_succ,
      load_usize_fails_of_unreadable b mem 0 0 uninit (by norm_num [wordSize]) h]

/-- C6 witness: three consecutive null loads in `memNull` all fail. -/
theorem repeated_null_load_fails_witness :
    memNull.readable 0 = false ∧
    loadUsizeSeq ⟨⟩ memNull 0 0 3 = List.replicate 3 (.error ()) :=
  ⟨rfl, repeated_null_load_fails ⟨⟩ memNull 0 3 rfl⟩

/-- C7: setup failure is fatal, not recoverable — `Bulletproof::new()`
panics (modelled as `none`) exactly when `bulletproof_register()` returns a
nonzero result, and otherwise returns the handle; its type has no error
variant, so a registration failure is never surfaced as a recoverable
error value. -/
theorem new_aborts_iff_register_fails (r : Nat) :
    (Bulletproof.new r = none ↔ r ≠ 0) ∧
    (Bulletproof.new r = some ⟨⟩ ↔ r = 0) := by
  unfold Bulletproof.new
  by_cases h : r = 0 <;> simp [h]

/-- C8: nesting is transparent — the handle is a zero-sized, freely copyable
value, so any two handles are equal, and guarded loads through either handle
return identical results on every memory and address; the source defines no
destructor, so dropping a handle performs no uninstall and cannot affect the
other handle's calls. -/
theorem handles_interchangeable (b₁ b₂ : Bulletproof) (mem : Memory)
    (a n uninitW : Nat) (uninitB : List Nat) :
    b₁ = b₂ ∧
    b₁.load_usize mem a uninitW = b₂.load_usize mem a uninitW ∧
    b₁.load mem a n uninitB = b₂.load mem a n uninitB := by
  cases b₁
  cases b₂
  exact ⟨rfl, rfl, rfl⟩

/-- C3: round-trip — for every writable (and readable) valid address `a` and
word `x`, `store_usize(a, x)` returns `Ok(())` and a subsequent
`load_usize(a)` on the updated memory yields `Ok(x)`. -/
theorem store_load_roundtrip (b : Bulletproof) (mem : Memory)
    (a x uninit : Nat)
    (hw : rangeWritable mem a wordSize = true)
    (hr : rangeReadable mem a wordSize = true)
    (hx : x < 2 ^ (8 * wordSize)) :
    (b.store_usize mem a x).1 = .ok () ∧
    b.load_usize (b.store_usize mem a x).2 a uninit = .ok x := by
  have hlen : (toLEBytes wordSize x).length = wordSize :=
    toLEBytes_length wordSize x
  have hst : b.store_usize mem a x =
      (.ok (), writeBytes mem a (toLEBytes wordSize x)) := by
    unfold Bulletproof.store_usize bulletproof_store bulletproof_store_bytes
    rw [hlen, hw]
    rfl
  refine ⟨by rw [hst], ?_⟩
  rw [hst]
  unfold Bulletproof.load_usize bulletproof_load
  have hr' : rangeReadable (writeBytes mem a (toLEBytes wordSize x)) a
      wordSize = true := hr
  rw [hr']
  simp only [if_true, ne_eq, not_true_eq_false, if_false, reduceIte]
  have hb : bytesAt (writeBytes mem a (toLEBytes wordSize x)) a wordSize =
      toLEBytes wordSize x := by
    conv_lhs => rw [← hlen]
    exact bytesAt_writeBytes mem a (toLEBytes wordSize x)
  rw [hb, usizeOfBytes_toLEBytes]
  have h256 : (256 : Nat) ^ wordSize = 2 ^ (8 * wordSize) := by
    norm_num [wordSize]
  rw [h256, Nat.mod_eq_of_lt hx]

/-- C3 witness: in `mem42`, storing 37 at address 0 succeeds and loading it
back yields 37, as in the crate's doc test. -/
theorem store_load_roundtrip_witness :
    rangeWritable mem42 0 wordSize = true ∧
    rangeReadable mem42 0 wordSize = true ∧
    37 < 2 ^ (8 * wordSize) ∧
    (Bulletproof.store_usize ⟨⟩ mem42 0 37).1 = .ok () ∧
    Bulletproof.load_usize ⟨⟩ (Bulletproof.store_usize ⟨⟩ mem42 0 37).2 0 0 =
      .ok 37 := by
  refine ⟨by decide, by decide, by decide, ?_⟩
  exact store_load_roundtrip ⟨⟩ mem42 0 37 0 (by decide) (by decide) (by decide)

/-- C4: on failure the operations have no observable effect — the results of
`load_usize` and `load` are independent of the uninitialized output binding
(so it is never exposed to the caller, and a failing load mutates nothing),
and a failing `store` or `store_usize` leaves memory exactly unchanged, so
no partial write is observable through the API. -/
theorem failure_has_no_effect (b : Bulletproof) (mem : Memory)
    (a n uninitW₁ uninitW₂ v : Nat) (uninitB₁ uninitB₂ src : List Nat) :
    b.load_usize mem a uninitW₁ = b.load_usize mem a uninitW₂ ∧
    b.load mem a n uninitB₁ = b.load mem a n uninitB₂ ∧
    ((b.store mem a src).1 = .error () → (b.store mem a src).2 = mem) ∧
    ((b.store_usize mem a v).1 = .error () → (b.store_usize mem a v).2 = mem) := by
  refine ⟨?_, ?_, ?_, ?_⟩
  · unfold Bulletproof.load_usize bulletproof_load
    cases h : rangeReadable mem a wordSize <;> simp [h]
  · unfold Bulletproof.load bulletproof_load_bytes
    cases h : rangeReadable mem a n <;> simp [h]
  · unfold Bulletproof.store bulletproof_store_bytes
    cases h : rangeWritable mem a src.length <;> simp [h]
  · unfold Bulletproof.store_usize bulletproof_store bulletproof_store_bytes
    cases h : rangeWritable mem a (toLEBytes wordSize v).length <;> simp [h]

/-- C4 witness: in the fully unmapped `memNull`, a failing one-byte store and
a failing word store both leave the memory unchanged. -/
theorem failure_has_no_effect_witness :
    (Bulletproof.store ⟨⟩ memNull 0 [1]).2 = memNull ∧
    (Bulletproof.store_usize ⟨⟩ memNull 0 5).2 = memNull :=
  ⟨(failure_has_no_effect ⟨⟩ memNull 0 0 0 0 5 [] [] [1]).2.2.1 rfl,
   (failure_has_no_effect ⟨⟩ memNull 0 0 0 0 5 [] [] [1]).2.2.2 rfl⟩

/-- C9: the word-sized and generic operations agree at type `usize` — for
every address and memory, `load_usize(a)` equals `load::<usize>(a)` (a
`wordSize`-byte load) with its byte result read as a word, and
`store_usize(a, v)` returns the same result and produces the same memory as
`store::<usize>(a, &v)` (storing the word's byte representation). -/
theorem word_ops_agree_with_generic (b : Bulletproof) (mem : Memory)
    (a v uninitW : Nat) (uninitB : List Nat) :
    b.load_usize mem a uninitW =
      (b.load mem a wordSize uninitB).map usizeOfBytes ∧
    b.store_usize mem a v = b.store mem a (toLEBytes wordSize v) := by
  constructor
  · unfold Bulletproof.load_usize Bulletproof.load bulletproof_load
      bulletproof_load_bytes
    cases h : rangeReadable mem a wordSize <;> simp [h, Except.map]
  · rfl

/-- C10: zero-sized edge case — for every address `a`, including null, a
`load` of a zero-sized type returns `Ok` (of the empty byte value) and a
`store` of a zero-sized type returns `Ok(())`: a guarded touch of zero bytes
accesses no memory and cannot fault. -/
theorem zero_sized_ops_succeed (b : Bulletproof) (mem : Memory) (a : Nat)
    (uninit : List Nat) :
    b.load mem a 0 uninit = .ok [] ∧ (b.store mem a []).1 = .ok () :=
  ⟨rfl, rfl⟩

/-- C7 witness: at register result 1 the constructor aborts; the instance of
the theorem at the concrete input 1. -/
theorem new_aborts_iff_register_fails_witness :
    (Bulletproof.new 1 = none ↔ 1 ≠ 0) ∧
    (Bulletproof.new 1 = some ⟨⟩ ↔ 1 = 0) :=
  new_aborts_iff_register_fails 1

/-- C8 witness: the instance of the theorem for two concretely constructed
handles at address 0 in `memNull`. -/
theorem handles_interchangeable_witness :
    (⟨⟩ : Bulletproof) = (⟨⟩ : Bulletproof) ∧
    Bulletproof.load_usize ⟨⟩ memNull 0 0 = Bulletproof.load_usize ⟨⟩ memNull 0 0 ∧
    Bulletproof.load ⟨⟩ memNull 0 0 [] = Bulletproof.load ⟨⟩ memNull 0 0 [] :=
  handles_interchangeable ⟨⟩ ⟨⟩ memNull 0 0 0 []

/-- C9 witness: the instance of the agreement theorem at address 0 and word 5
in `memNull`. -/
theorem word_ops_agree_with_generic_witness :
    Bulletproof.load_usize ⟨⟩ memNull 0 0 =
      (Bulletproof.load ⟨⟩ memNull 0 wordSize []).map usizeOfBytes ∧
    Bulletproof.store_usize ⟨⟩ memNull 0 5 =
      Bulletproof.store ⟨⟩ memNull 0 (toLEBytes wordSize 5) :=
  word_ops_agree_with_generic ⟨⟩ memNull 0 5 0 []

/-- C10 witness: the instance of the zero-size theorem at the null address in
`memNull`. -/
theorem zero_sized_ops_succeed_witness :
    Bulletproof.load ⟨⟩ memNull 0 0 [] = .ok [] ∧
    (Bulletproof.store ⟨⟩ memNull 0 []).1 = .ok () :=
  zero_sized_ops_succeed ⟨⟩ memNull 0 []
